import Mathlib

/-!
# Verification of the watch-what movie-voting backend

Shallow embedding of the backend of the `watch-what` repository
(`src/backend/app/crud.py`, `src/backend/app/main.py`,
`src/backend/app/websocket_manager.py`, data model in
`src/backend/app/models.py`), together with proofs settling the claims
about the round-elimination state machine and the websocket broadcast
router.

Database rows are embedded as structures, the database as lists of rows.
All `id` columns are primary keys in `models.py`, so the database engine
guarantees that ids are unique within a table; definitions that mirror
Python dicts keyed by ids (the tally dictionaries) rely on that
uniqueness, and theorems that need it take a `DB.wf` hypothesis.
-/

/-- A row of the `sessions` table (`models.Session`). -/
structure SessionRec where
  id : Int
  code : String
  status : String
  current_round : Int
  winner_movie_id : Option Int
deriving Repr, DecidableEq

/-- A row of the `participants` table (`models.Participant`). -/
structure ParticipantRec where
  id : Int
  session_id : Int
  name : String
deriving Repr, DecidableEq

/-- A row of the `movies` table (`models.Movie`). -/
structure MovieRec where
  id : Int
  session_id : Int
  title : String
  submitted_by_participant_id : Int
  eliminated_round : Option Int
deriving Repr, DecidableEq

/-- A row of the `votes` table (`models.Vote`). -/
structure VoteRec where
  id : Int
  participant_id : Int
  movie_id : Int
  session_id : Int
  round : Int
deriving Repr, DecidableEq

/-- The database state: one list of rows per table, plus the
autoincrement counter used for new vote ids. -/
structure DB where
  sessions : List SessionRec
  participants : List ParticipantRec
  movies : List MovieRec
  votes : List VoteRec
  next_vote_id : Int
deriving Repr, DecidableEq

/-- Well-formedness guaranteed by the schema: `id` is a primary key of
`sessions` and of `movies`, so ids are unique within each table. -/
def DB.wf (db : DB) : Prop :=
  (db.sessions.map SessionRec.id).Nodup ∧ (db.movies.map MovieRec.id).Nodup

instance (db : DB) : Decidable db.wf := by
  unfold DB.wf; infer_instance

/-- `crud.get_session`: first session row with the given id. -/
def get_session (db : DB) (session_id : Int) : Option SessionRec :=
  db.sessions.find? (fun s => s.id == session_id)

/-- `crud.get_participant`. -/
def get_participant (db : DB) (participant_id : Int) : Option ParticipantRec :=
  db.participants.find? (fun p => p.id == participant_id)

/-- `crud.get_movie`. -/
def get_movie (db : DB) (movie_id : Int) : Option MovieRec :=
  db.movies.find? (fun m => m.id == movie_id)

/-- `crud.get_session_movies`: all movies of a session. -/
def get_session_movies (db : DB) (session_id : Int) : List MovieRec :=
  db.movies.filter (fun m => m.session_id == session_id)

/-- `crud.get_active_movies`: movies of the session whose
`eliminated_round` is null. -/
def get_active_movies (db : DB) (session_id : Int) : List MovieRec :=
  db.movies.filter (fun m => m.session_id == session_id && m.eliminated_round.isNone)

/-- Number of active (non-eliminated) movies of a session, as counted at
the end of `crud.advance_session_round`. -/
def activeCount (db : DB) (session_id : Int) : Nat :=
  (get_active_movies db session_id).length

/-- `crud.get_round_votes`: votes of a session for one round. -/
def get_round_votes (db : DB) (session_id : Int) (round_number : Int) : List VoteRec :=
  db.votes.filter (fun v => v.session_id == session_id && v.round == round_number)

/-- One entry of the `vote_counts` dictionaries built in
`crud.advance_session_round` and `crud.get_round_results`. -/
structure VoteCount where
  movie_id : Int
  movie_title : String
  vote_count : Nat
  round : Int
deriving Repr, DecidableEq

/-- The `vote_counts` dictionary of `crud.advance_session_round` (lines
62-74) and `crud.get_round_results` (lines 281-293): every movie of the
list gets an entry, initialised to 0 and incremented once per matching
vote.  Because movie ids are unique (primary key), the dictionary keyed
by `movie.id` is, in order, one entry per movie with the count of the
round's votes for that movie. -/
def tally_vote_counts (all_movies : List MovieRec) (round_votes : List VoteRec)
    (round : Int) : List VoteCount :=
  all_movies.map (fun m =>
    { movie_id := m.id
      movie_title := m.title
      vote_count := (round_votes.filter (fun v => v.movie_id == m.id)).length
      round := round })

/-- `min(vc["vote_count"] for vc in vote_counts.values())`, for a
nonempty list (Python `min` of an empty sequence raises; callers guard
with `if vote_counts:`). -/
def min_vote_count : List VoteCount → Nat
  | [] => 0
  | vc :: rest => rest.foldl (fun acc x => Nat.min acc x.vote_count) vc.vote_count

/-- `max(...)` over vote counts, used by `crud.get_round_results`. -/
def max_vote_count : List VoteCount → Nat
  | [] => 0
  | vc :: rest => rest.foldl (fun acc x => Nat.max acc x.vote_count) vc.vote_count

/-- The `vote_counts` dictionary built inside `crud.advance_session_round`
for a session at a given round: all movies of the session (eliminated
ones included, lines 58-59) tallied against the round's votes. -/
def session_vote_counts (db : DB) (session_id round : Int) : List VoteCount :=
  tally_vote_counts (get_session_movies db session_id)
    (db.votes.filter (fun v => v.session_id == session_id && v.round == round)) round

/-- `movies_to_eliminate` of `crud.advance_session_round` (lines 80-82):
ids of the movies holding the minimum vote count, empty when the session
has no movies (`if vote_counts:`). -/
def advance_movies_to_eliminate (db : DB) (session_id round : Int) : List Int :=
  let vcs := session_vote_counts db session_id round
  if vcs.isEmpty then []
  else ((vcs.filter (fun vc => vc.vote_count == min_vote_count vcs)).map VoteCount.movie_id)

/-- The per-movie update performed by the elimination loop of
`crud.advance_session_round` (lines 85-95): movies whose id is in the
elimination list get `eliminated_round = current_round` (overwriting any
previous value), all others are untouched. -/
def elimUpdate (db : DB) (session_id round : Int) (m : MovieRec) : MovieRec :=
  if (advance_movies_to_eliminate db session_id round).contains m.id then
    { m with eliminated_round := some round }
  else m

/-- An entry of the `eliminated_movies` list returned by
`crud.advance_session_round`. -/
structure EliminatedInfo where
  movie_id : Int
  title : String
  vote_count : Nat
  eliminated_round : Int
deriving Repr, DecidableEq

/-- The `winner_info` dictionary of `crud.advance_session_round`. -/
structure WinnerInfo where
  movie_id : Int
  title : String
deriving Repr, DecidableEq

/-- The result dictionary of `crud.advance_session_round` (lines 126-133). -/
structure AdvanceResult where
  session : SessionRec
  eliminated_movies : List EliminatedInfo
  old_round : Int
  new_round : Int
  winner : Option WinnerInfo
  vote_counts : List VoteCount
deriving Repr, DecidableEq

/-- `crud.advance_session_round` (lines 47-133): tally the current
round's votes over all movies of the session, eliminate the movies with
the minimum count, advance `current_round` by one, and set
`status = "finished"` (and the winner, if exactly one movie is active)
when at most one active movie remains.  Returns `none` when the session
does not exist. -/
def advance_session_round (db : DB) (session_id : Int) : Option (DB × AdvanceResult) :=
  match get_session db session_id with
  | none => none
  | some s =>
    let vote_counts := session_vote_counts db session_id s.current_round
    let elim_ids := advance_movies_to_eliminate db session_id s.current_round
    let eliminated_movies : List EliminatedInfo := elim_ids.filterMap (fun mid =>
      match get_movie db mid with
      | none => none
      | some m => some
          { movie_id := m.id
            title := m.title
            vote_count := ((vote_counts.find? (fun vc => vc.movie_id == mid)).map
              VoteCount.vote_count).getD 0
            eliminated_round := s.current_round })
    let movies' := db.movies.map (elimUpdate db session_id s.current_round)
    let old_round := s.current_round
    let new_round := s.current_round + 1
    let active_movies :=
      (movies'.filter (fun m => m.session_id == session_id && m.eliminated_round.isNone)).length
    let status' := if active_movies ≤ 1 then "finished" else s.status
    let winner_movie :=
      if active_movies == 1 then
        movies'.find? (fun m => m.session_id == session_id && m.eliminated_round.isNone)
      else none
    let winner_info := winner_movie.map (fun w => { movie_id := w.id, title := w.title : WinnerInfo })
    let s' := { s with
      current_round := new_round
      status := status'
      winner_movie_id := match winner_movie with | some w => some w.id | none => s.winner_movie_id }
    let db' := { db with
      sessions := db.sessions.map (fun t => if t.id == session_id then s' else t)
      movies := movies' }
    some (db', { session := s', eliminated_movies := eliminated_movies, old_round := old_round,
                 new_round := new_round, winner := winner_info, vote_counts := vote_counts })

/-- `crud.update_session_status` (lines 38-45): set the status if the
session exists; unchanged database and `none` otherwise. -/
def update_session_status (db : DB) (session_id : Int) (status : String) :
    DB × Option SessionRec :=
  match get_session db session_id with
  | none => (db, none)
  | some s =>
    let s' := { s with status := status }
    ({ db with sessions := db.sessions.map (fun t => if t.id == session_id then s' else t) },
     some s')

/-- Typed errors for the HTTP endpoints of `main.py`: one constructor
per distinct `HTTPException` raised by the embedded endpoints, plus
`internalError` for the uncaught `TypeError` (surfacing as HTTP 500)
that the vote endpoint raises after creating a vote — see `cast_vote`. -/
inductive ApiError where
  | sessionNotFound
  | participantNotFound
  | movieNotFound
  | notInVotingPhase
  | eliminatedMovie
  | duplicateVote
  | invalidStatus
  | internalError
deriving Repr, DecidableEq

instance {ε α : Type} [DecidableEq ε] [DecidableEq α] : DecidableEq (Except ε α) := fun a b =>
  match a, b with
  | .error e1, .error e2 =>
    if h : e1 = e2 then isTrue (by rw [h]) else isFalse (by intro hc; cases hc; exact h rfl)
  | .error _, .ok _ => isFalse (by intro hc; cases hc)
  | .ok _, .error _ => isFalse (by intro hc; cases hc)
  | .ok v1, .ok v2 =>
    if h : v1 = v2 then isTrue (by rw [h]) else isFalse (by intro hc; cases hc; exact h rfl)

/-- The `valid_statuses` list of `main.update_session_status`. -/
def valid_statuses : List String := ["submission", "voting", "revote", "finished"]

/-- The `PUT /sessions/{id}/status` endpoint (`main.py` lines 259-279):
validate the status value, then update unconditionally. -/
def update_session_status_endpoint (db : DB) (session_id : Int) (status : String) :
    DB × Except ApiError SessionRec :=
  if !(valid_statuses.contains status) then (db, .error .invalidStatus)
  else
    match update_session_status db session_id status with
    | (_, none) => (db, .error .sessionNotFound)
    | (db', some s') => (db', .ok s')

/-- The body of a vote request (`schemas.VoteCreate`). -/
structure VoteCreate where
  movie_id : Int
  round : Int
  participant_id : Int
  session_id : Int
deriving Repr, DecidableEq

/-- `crud.create_vote` (lines 204-215): append a new vote row. -/
def create_vote (db : DB) (vote : VoteCreate) : DB × VoteRec :=
  let v : VoteRec :=
    { id := db.next_vote_id
      participant_id := vote.participant_id
      movie_id := vote.movie_id
      session_id := vote.session_id
      round := vote.round }
  ({ db with votes := db.votes ++ [v], next_vote_id := db.next_vote_id + 1 }, v)

/-- The `POST /sessions/{id}/votes/` endpoint (`main.py` lines 177-234):
validate session, voting phase, participant, movie (existing and not
eliminated), and the absence of a vote with the same
(participant, movie, round) triple; then create and commit the vote.
Validation failures are raised before any write, so the database is
unchanged on those paths.  After `crud.create_vote` has committed, line
215 calls `get_round_results(db, session_id, vote.round)`, and that bare
name resolves to the module's own async route handler (line 237), not to
`crud.get_round_results`; called without `await` it returns a coroutine,
so subscripting `round_results["votes"]` at line 217 raises `TypeError`.
The exception propagates (HTTP 500) and nothing is rolled back (`get_db`
in `database.py` only closes the session), so a call that passes every
validation persists the vote row and still returns an error to the
caller: the endpoint can never return a Vote.  Note also that
`vote.round` is never compared with the session's `current_round`. -/
def cast_vote (db : DB) (session_id : Int) (vote : VoteCreate) :
    DB × Except ApiError VoteRec :=
  match get_session db session_id with
  | none => (db, .error .sessionNotFound)
  | some s =>
    if !(s.status == "voting" || s.status == "revote") then (db, .error .notInVotingPhase)
    else
      match get_participant db vote.participant_id with
      | none => (db, .error .participantNotFound)
      | some _ =>
        match get_movie db vote.movie_id with
        | none => (db, .error .movieNotFound)
        | some m =>
          if !m.eliminated_round.isNone then (db, .error .eliminatedMovie)
          else if db.votes.any (fun v =>
              v.participant_id == vote.participant_id && v.movie_id == vote.movie_id &&
              v.round == vote.round) then
            (db, .error .duplicateVote)
          else
            let r := create_vote db vote
            (r.1, .error .internalError)

/-- The result of `crud.get_round_results` (lines 273-309). -/
structure RoundResults where
  round : Int
  votes : List VoteCount
  eliminated_movies : List Int
deriving Repr, DecidableEq

/-- `crud.get_round_results` (lines 273-309): tally a round over all
movies of the session; report as eliminated the minimum-count movies,
but only when not all counts are equal. -/
def get_round_results (db : DB) (session_id : Int) (round_number : Int) : RoundResults :=
  let vote_counts := tally_vote_counts (get_session_movies db session_id)
    (get_round_votes db session_id round_number) round_number
  let eliminated :=
    if vote_counts.isEmpty then []
    else if min_vote_count vote_counts < max_vote_count vote_counts then
      (vote_counts.filter (fun vc => vc.vote_count == min_vote_count vote_counts)).map
        VoteCount.movie_id
    else []
  { round := round_number, votes := vote_counts, eliminated_movies := eliminated }

/-!
## The websocket connection manager

`websocket_manager.ConnectionManager` keeps three containers: a Python
list of all connections, a dict from session id to a set of connections,
and a dict from connection to its session id.  Connections are embedded
as integer handles; the dicts as insertion-ordered association lists
(one entry per key, mirroring Python dicts); the sets as duplicate-free
lists in insertion order.  The outcome of `websocket.send_text` is
supplied as a function from connection to a failure flag, so that
`broadcast_to_session` is a pure function returning the new manager and
the list of connections a delivery was attempted to.
-/

/-- Lookup in the `session_connections` dict. -/
def scLookup (sc : List (Int × List Int)) (session_id : Int) : Option (List Int) :=
  (sc.find? (fun kv => kv.1 == session_id)).map Prod.snd

/-- Lookup in the `connection_sessions` dict (`dict.get`). -/
def csLookup (cs : List (Int × Int)) (ws : Int) : Option Int :=
  (cs.find? (fun kv => kv.1 == ws)).map Prod.snd

/-- The state of `websocket_manager.ConnectionManager`. -/
structure ConnectionManager where
  active_connections : List Int
  session_connections : List (Int × List Int)
  connection_sessions : List (Int × Int)
deriving Repr, DecidableEq

/-- The freshly constructed manager (`ConnectionManager.__init__`). -/
def ConnectionManager.empty : ConnectionManager := ⟨[], [], []⟩

/-- Well-formedness maintained by Python dicts: one entry per key. -/
def ConnectionManager.wf (m : ConnectionManager) : Prop :=
  (m.session_connections.map Prod.fst).Nodup ∧ (m.connection_sessions.map Prod.fst).Nodup

instance (m : ConnectionManager) : Decidable m.wf := by
  unfold ConnectionManager.wf; infer_instance

/-- `ConnectionManager.connect` (lines 37-58): append to the active
list, add to the session's set (creating it if absent), and set the
connection's session in the reverse dict (overwriting any previous
association). -/
def ConnectionManager.connect (m : ConnectionManager) (ws session_id : Int) :
    ConnectionManager :=
  let sc := match scLookup m.session_connections session_id with
    | none => m.session_connections ++ [(session_id, [ws])]
    | some _ => m.session_connections.map (fun kv =>
        if kv.1 == session_id then (kv.1, if kv.2.contains ws then kv.2 else kv.2 ++ [ws])
        else kv)
  let cs := match csLookup m.connection_sessions ws with
    | none => m.connection_sessions ++ [(ws, session_id)]
    | some _ => m.connection_sessions.map (fun kv => if kv.1 == ws then (kv.1, session_id) else kv)
  { active_connections := m.active_connections ++ [ws]
    session_connections := sc
    connection_sessions := cs }

/-- `ConnectionManager.disconnect` (lines 60-84): remove the first
occurrence from the active list; then, when the reverse dict knows the
connection's session and the Python truthiness test
`if session_id and session_id in self.session_connections` passes (so a
recorded session id of 0 is skipped), discard the connection from that
session's set and drop the set once empty; finally delete the reverse
dict entry. -/
def ConnectionManager.disconnect (m : ConnectionManager) (ws : Int) : ConnectionManager :=
  let ac := if m.active_connections.contains ws then m.active_connections.erase ws
            else m.active_connections
  let sc := match csLookup m.connection_sessions ws with
    | none => m.session_connections
    | some session_id =>
      if session_id != 0 && (scLookup m.session_connections session_id).isSome then
        let sc1 := m.session_connections.map (fun kv =>
          if kv.1 == session_id then (kv.1, kv.2.filter (fun c => c != ws)) else kv)
        if ((scLookup sc1 session_id).getD []).isEmpty then
          sc1.filter (fun kv => kv.1 != session_id)
        else sc1
      else m.session_connections
  let cs := if (csLookup m.connection_sessions ws).isSome then
              m.connection_sessions.filter (fun kv => kv.1 != ws)
            else m.connection_sessions
  { active_connections := ac, session_connections := sc, connection_sessions := cs }

/-- `ConnectionManager.broadcast_to_session` (lines 120-142): no-op when
the session has no set; otherwise attempt delivery to every connection
of the set, collect the ones whose send failed, and disconnect them
after the fan-out pass.  Returns the new manager and the list of
connections delivery was attempted to. -/
def ConnectionManager.broadcast_to_session (m : ConnectionManager) (session_id : Int)
    (send_fails : Int → Bool) : ConnectionManager × List Int :=
  match scLookup m.session_connections session_id with
  | none => (m, [])
  | some conns =>
    let disconnected := conns.filter send_fails
    (disconnected.foldl (fun acc c => acc.disconnect c) m, conns)

/-- `ConnectionManager.get_session_connection_count` (lines 144-154). -/
def ConnectionManager.get_session_connection_count (m : ConnectionManager)
    (session_id : Int) : Nat :=
  ((scLookup m.session_connections session_id).getD []).length

/-- `ConnectionManager.get_total_connection_count` (lines 156-163). -/
def ConnectionManager.get_total_connection_count (m : ConnectionManager) : Nat :=
  m.active_connections.length

/-!
## Iterating round advances

Harness for the termination claim: consecutive calls of the
round-advance endpoint with no other operation in between.
-/

/-- One call of `advance_session_round` viewed as a state transformer on
the database; the database is unchanged when the session is absent. -/
def advStep (db : DB) (sid : Int) : DB :=
  match advance_session_round db sid with
  | none => db
  | some r => r.1

/-- `n` consecutive calls of the round-advance endpoint. -/
def advanceIter (db : DB) (sid : Int) : Nat → DB
  | 0 => db
  | n + 1 => advanceIter (advStep db sid) sid n

/-- The status of a session as read back from the database. -/
def sessionStatus (db : DB) (sid : Int) : Option String :=
  (get_session db sid).map SessionRec.status

/-!
## Concrete states

Concrete database and manager states used by counterexamples and
witnesses.  All are reachable through the public HTTP/websocket API:
sessions are created with arbitrary status and round
(`SessionCreate`), movies during submission, and votes while the status
is `"voting"` — `cast_vote` never compares the request's round with the
session's `current_round`, so votes for any round number can exist.
-/

/-- Helper: a movie row submitted by participant 1. -/
def mkMovie (id sid : Int) (title : String) (elim : Option Int) : MovieRec :=
  { id := id, session_id := sid, title := title, submitted_by_participant_id := 1,
    eliminated_round := elim }

/-- A session in round 2 with movie 1 active, movie 2 already eliminated
in round 1, and one round-2 vote for movie 1. -/
def c1db : DB :=
  { sessions := [{ id := 1, code := "C1C1C1", status := "voting", current_round := 2,
                   winner_movie_id := none }]
    participants := [{ id := 1, session_id := 1, name := "alice" }]
    movies := [mkMovie 1 1 "A" none, mkMovie 2 1 "B" (some 1)]
    votes := [{ id := 1, participant_id := 1, movie_id := 1, session_id := 1, round := 2 }]
    next_vote_id := 2 }

/-- Same shape as `c1db`, kept separate for the tally claim. -/
def c2db : DB :=
  { sessions := [{ id := 1, code := "C2C2C2", status := "voting", current_round := 2,
                   winner_movie_id := none }]
    participants := [{ id := 1, session_id := 1, name := "alice" }]
    movies := [mkMovie 1 1 "A" none, mkMovie 2 1 "B" (some 1)]
    votes := [{ id := 1, participant_id := 1, movie_id := 1, session_id := 1, round := 2 }]
    next_vote_id := 2 }

/-- A voting session with two active movies and no votes. -/
def c3db : DB :=
  { sessions := [{ id := 1, code := "C3C3C3", status := "voting", current_round := 1,
                   winner_movie_id := none }]
    participants := [{ id := 1, session_id := 1, name := "alice" }]
    movies := [mkMovie 1 1 "A" none, mkMovie 2 1 "B" none]
    votes := []
    next_vote_id := 1 }

/-- Three active movies; movies 1 and 2 each hold one vote in every one
of the rounds 1-4 (votes for future rounds are accepted by `cast_vote`),
movie 3 none.  Each round-advance eliminates only the minimum-count
movie 3 (re-eliminating it from round 2 on), so the active count stays
at 2 for four calls. -/
def c4db : DB :=
  { sessions := [{ id := 1, code := "C4C4C4", status := "voting", current_round := 1,
                   winner_movie_id := none }]
    participants := [{ id := 1, session_id := 1, name := "alice" }]
    movies := [mkMovie 1 1 "A" none, mkMovie 2 1 "B" none, mkMovie 3 1 "C" none]
    votes := [{ id := 1, participant_id := 1, movie_id := 1, session_id := 1, round := 1 },
              { id := 2, participant_id := 1, movie_id := 2, session_id := 1, round := 1 },
              { id := 3, participant_id := 1, movie_id := 1, session_id := 1, round := 2 },
              { id := 4, participant_id := 1, movie_id := 2, session_id := 1, round := 2 },
              { id := 5, participant_id := 1, movie_id := 1, session_id := 1, round := 3 },
              { id := 6, participant_id := 1, movie_id := 2, session_id := 1, round := 3 },
              { id := 7, participant_id := 1, movie_id := 1, session_id := 1, round := 4 },
              { id := 8, participant_id := 1, movie_id := 2, session_id := 1, round := 4 }]
    next_vote_id := 9 }

/-- A voting session in round 1 with one active movie and no votes. -/
def c6db : DB :=
  { sessions := [{ id := 1, code := "C6C6C6", status := "voting", current_round := 1,
                   winner_movie_id := none }]
    participants := [{ id := 1, session_id := 1, name := "alice" }]
    movies := [mkMovie 1 1 "A" none]
    votes := []
    next_vote_id := 10 }

/-- A vote request for round 99 while `c6db`'s session is in round 1. -/
def c6vote : VoteCreate := { movie_id := 1, round := 99, participant_id := 1, session_id := 1 }

/-- A manager with connection 7 registered under session id 0 (the
websocket endpoint `/ws/{session_id}` accepts any integer session id,
including 0, without checking that the session exists). -/
def c9m : ConnectionManager := ConnectionManager.empty.connect 7 0

/-!
## Counterexamples
-/

/-- Counterexample to C1: in `c1db`, movie 2 was eliminated in round 1,
yet the next successful `advance_session_round` overwrites its
`eliminated_round` with the current round 2 — `eliminated_round` is not
set at most once, because the elimination scan ranges over all movies of
the session, eliminated ones included. -/
theorem advance_rewrites_eliminated_round :
    ((c1db.movies.find? (fun m => m.id == 2)).map MovieRec.eliminated_round
      = some (some 1)) ∧
    ((advance_session_round c1db 1).map
      (fun r => (r.1.movies.find? (fun m => m.id == 2)).map MovieRec.eliminated_round)
      = some (some (some 2))) ∧
    (some 1 : Option Int) ≠ some 2 := by decide

/-- Counterexample to C2: the tally computed and returned by
`advance_session_round` on `c2db` contains an entry for movie 2 even
though movie 2 is already eliminated — the tally ranges over all movies
of the session, not only the active ones. -/
theorem advance_tally_contains_eliminated_movie :
    ((advance_session_round c2db 1).map (fun r => r.2.vote_counts.map VoteCount.movie_id)
      = some [1, 2]) ∧
    ((c2db.movies.find? (fun m => m.id == 2)).map MovieRec.eliminated_round
      = some (some 1)) := by decide

/-- Counterexample to C3: on `c3db` (two active movies), the status
endpoint sets `status = "finished"` unconditionally, so after this
successful public operation the session is finished while two candidates
still have a null `eliminated_round`. -/
theorem update_status_breaks_finished_equivalence :
    ((update_session_status_endpoint c3db 1 "finished").2
      = .ok { id := 1, code := "C3C3C3", status := "finished", current_round := 1,
              winner_movie_id := none }) ∧
    sessionStatus (update_session_status_endpoint c3db 1 "finished").1 1 = some "finished" ∧
    activeCount (update_session_status_endpoint c3db 1 "finished").1 1 = 2 := by decide

/-- Counterexample to C4: `c4db` has N = 3 active candidates, but after
3 consecutive `advance_session_round` calls the session is still in
status `"voting"` — votes stuffed into future rounds keep the two voted
movies above the minimum while the already-eliminated movie 3 is
re-eliminated round after round. -/
theorem advance_not_finished_after_n_calls :
    activeCount c4db 1 = 3 ∧
    sessionStatus (advanceIter c4db 1 3) 1 = some "voting" := by decide

/-- Counterexample to C6: on `c6db` (status `"voting"`, current round 1)
a vote for round 99 is not rejected on account of its round —
`cast_vote` never compares the request's round with the session's
`current_round`: the row is created and committed carrying round 99,
and the endpoint's response (the internal error of the unawaited
`get_round_results` call) is identical to the one a current-round vote
receives. -/
theorem cast_vote_accepts_wrong_round :
    ((get_session c6db 1).map SessionRec.current_round = some 1) ∧
    c6vote.round = 99 ∧
    (cast_vote c6db 1 c6vote).1.votes
      = [{ id := 10, participant_id := 1, movie_id := 1, session_id := 1, round := 99 }] ∧
    (cast_vote c6db 1 c6vote).2 = Except.error ApiError.internalError ∧
    (cast_vote c6db 1
        { movie_id := 1, round := 1, participant_id := 1, session_id := 1 }).2
      = Except.error ApiError.internalError := by decide

/-- Counterexample to C8: registering the same connection twice under
the same session changes the total connection count (the Python
`active_connections` list receives a duplicate entry), so the second
call does not leave the registry as if the connection had been
registered once. -/
theorem connect_twice_changes_total_count :
    (ConnectionManager.empty.connect 7 1).get_total_connection_count = 1 ∧
    ((ConnectionManager.empty.connect 7 1).connect 7 1).get_total_connection_count = 2 := by
  decide

/-- Counterexample to C9: connection 7 is registered under session id 0;
its send fails during a `broadcast_to_session`, yet it is not removed
from the per-session set (the Python truthiness test `if session_id`
rejects 0) and the next broadcast to session 0 attempts delivery to it
again. -/
theorem broadcast_eviction_fails_for_session_zero :
    (7 ∈ (scLookup ((c9m.broadcast_to_session 0 (fun _ => true)).1).session_connections 0).getD [])
    ∧ 7 ∈ ((c9m.broadcast_to_session 0 (fun _ => true)).1.broadcast_to_session 0
        (fun _ => true)).2 := by decide

/-!
## Helper lemmas about the round-advance step
-/

/-- A session found by id carries that id. -/
theorem get_session_id_eq {db : DB} {sid : Int} {s : SessionRec}
    (h : get_session db sid = some s) : s.id = sid := by
  have := List.find?_some h
  simpa using this

/-- Replacing every row with a given id by a row carrying that id makes
`find?` return the replacement, provided a row with the id was found
before. -/
theorem find_replace {l : List SessionRec} {sid : Int} {s s' : SessionRec}
    (h : l.find? (fun t => t.id == sid) = some s) (hid : s'.id = sid) :
    (l.map (fun t => if t.id == sid then s' else t)).find? (fun t => t.id == sid)
      = some s' := by
  induction l with
  | nil => simp at h
  | cons a l ih =>
    simp only [List.map_cons]
    cases ha : (a.id == sid) with
    | true =>
      have hs : (s'.id == sid) = true := by simp [hid]
      simp [List.find?_cons, hs]
    | false =>
      simp only [List.find?_cons, ha] at h
      simp only [Bool.false_eq_true, if_false, List.find?_cons, ha]
      exact ih h

/-- Characterisation of one successful `advance_session_round` call:
which tables change and how, where the updated session is found again,
and the returned result's fields. -/
theorem advance_spec (db : DB) (sid : Int) (s : SessionRec)
    (h : get_session db sid = some s) :
    ∃ db' res, advance_session_round db sid = some (db', res) ∧
      db'.votes = db.votes ∧
      db'.participants = db.participants ∧
      db'.movies = db.movies.map (elimUpdate db sid s.current_round) ∧
      db'.next_vote_id = db.next_vote_id ∧
      get_session db' sid = some res.session ∧
      res.session.id = s.id ∧
      res.session.current_round = s.current_round + 1 ∧
      res.session.status = (if activeCount db' sid ≤ 1 then "finished" else s.status) ∧
      res.old_round = s.current_round ∧
      res.new_round = s.current_round + 1 ∧
      res.vote_counts = session_vote_counts db sid s.current_round := by
  unfold advance_session_round
  rw [h]
  refine ⟨_, _, rfl, rfl, rfl, rfl, rfl, ?_, rfl, rfl, ?_, rfl, rfl, rfl⟩
  · exact find_replace (s := s) h (get_session_id_eq (s := s) h)
  · rfl

/-- `elimUpdate` either leaves a movie unchanged or stamps it with the
round, preserving id and session. -/
theorem elimUpdate_cases (db : DB) (sid r : Int) (m : MovieRec) :
    elimUpdate db sid r m = m ∨
      ((elimUpdate db sid r m).eliminated_round = some r ∧
       (elimUpdate db sid r m).session_id = m.session_id ∧
       (elimUpdate db sid r m).id = m.id ∧
       (advance_movies_to_eliminate db sid r).contains m.id = true) := by
  unfold elimUpdate
  by_cases hc : (advance_movies_to_eliminate db sid r).contains m.id = true
  · exact Or.inr (by rw [if_pos hc]; exact ⟨rfl, rfl, rfl, hc⟩)
  · exact Or.inl (by rw [if_neg hc])

/-- The number of active movies never grows across the elimination pass. -/
theorem active_length_map_elim_le (db : DB) (sid r : Int) :
    ∀ l : List MovieRec,
      ((l.map (elimUpdate db sid r)).filter
        (fun m => m.session_id == sid && m.eliminated_round.isNone)).length ≤
      (l.filter (fun m => m.session_id == sid && m.eliminated_round.isNone)).length := by
  intro l
  induction l with
  | nil => simp
  | cons a l ih =>
    simp only [List.map_cons, List.filter_cons]
    rcases elimUpdate_cases db sid r a with hc | ⟨h1, _, _, _⟩
    · rw [hc]
      by_cases hp : (a.session_id == sid && a.eliminated_round.isNone) = true
      · simp only [if_pos hp, List.length_cons]
        exact Nat.succ_le_succ ih
      · simp only [if_neg hp]
        exact ih
    · have hfa : ((elimUpdate db sid r a).session_id == sid &&
          (elimUpdate db sid r a).eliminated_round.isNone) = false := by
        rw [h1]; simp
      rw [hfa]
      simp only [Bool.false_eq_true, if_false]
      by_cases hp : (a.session_id == sid && a.eliminated_round.isNone) = true
      · simp only [if_pos hp, List.length_cons]
        exact Nat.le_succ_of_le ih
      · simp only [if_neg hp]
        exact ih

/-- With no votes for the tallied round, every tally entry is zero. -/
theorem tally_vote_counts_zero (l : List MovieRec) (r : Int) :
    ∀ vc ∈ tally_vote_counts l [] r, vc.vote_count = 0 := by
  intro vc hvc
  unfold tally_vote_counts at hvc
  obtain ⟨m, _, rfl⟩ := List.mem_map.1 hvc
  simp

/-- The minimum of an all-zero tally is zero. -/
theorem min_vote_count_zero (vcs : List VoteCount)
    (h0 : ∀ vc ∈ vcs, vc.vote_count = 0) : min_vote_count vcs = 0 := by
  cases vcs with
  | nil => rfl
  | cons vc rest =>
    have hvc : vc.vote_count = 0 := h0 vc (by simp)
    have aux : ∀ l : List VoteCount, (∀ x ∈ l, x.vote_count = 0) →
        l.foldl (fun acc x => Nat.min acc x.vote_count) 0 = 0 := by
      intro l
      induction l with
      | nil => intro _; rfl
      | cons x l ih =>
        intro hl
        have hx : x.vote_count = 0 := hl x (by simp)
        simp only [List.foldl_cons, hx, Nat.min_self]
        exact ih (fun y hy => hl y (by simp [hy]))
    calc min_vote_count (vc :: rest)
        = rest.foldl (fun acc x => Nat.min acc x.vote_count) vc.vote_count := rfl
      _ = 0 := by
          rw [hvc]
          exact aux rest (fun y hy => h0 y (by simp [hy]))

/-- The tally is empty exactly when the session has no movies. -/
theorem session_vote_counts_isEmpty (db : DB) (sid r : Int) :
    (session_vote_counts db sid r).isEmpty = (get_session_movies db sid).isEmpty := by
  simp [session_vote_counts, tally_vote_counts, List.isEmpty_iff]
  cases get_session_movies db sid <;> simp

/-- The tally has one entry per movie of the session, in order. -/
theorem session_vote_counts_ids (db : DB) (sid r : Int) :
    (session_vote_counts db sid r).map VoteCount.movie_id
      = (get_session_movies db sid).map MovieRec.id := by
  unfold session_vote_counts tally_vote_counts
  rw [List.map_map]
  rfl

/-- When the session has no votes for its current round, one round
advance eliminates every movie of the session (all tallies are zero), so
no active movie remains afterwards. -/
theorem active_zero_after_advance_without_votes (db : DB) (sid r : Int)
    (hv : db.votes.filter (fun v => v.session_id == sid && v.round == r) = []) :
    ((db.movies.map (elimUpdate db sid r)).filter
      (fun m => m.session_id == sid && m.eliminated_round.isNone)).length = 0 := by
  rw [List.length_eq_zero, List.filter_eq_nil_iff]
  intro m' hm'
  obtain ⟨m, hm, rfl⟩ := List.mem_map.1 hm'
  have hz : ∀ vc ∈ session_vote_counts db sid r, vc.vote_count = 0 := by
    unfold session_vote_counts
    rw [hv]
    exact tally_vote_counts_zero _ _
  have hmin : min_vote_count (session_vote_counts db sid r) = 0 :=
    min_vote_count_zero _ hz
  by_cases hsid : m.session_id = sid
  · -- the movie belongs to the session, hence its id is in the elimination list
    have hmem : m ∈ get_session_movies db sid := by
      unfold get_session_movies
      exact List.mem_filter.2 ⟨hm, by simp [hsid]⟩
    have hne : (session_vote_counts db sid r).isEmpty = false := by
      rw [session_vote_counts_isEmpty]
      cases hsm : get_session_movies db sid with
      | nil => rw [hsm] at hmem; simp at hmem
      | cons x xs => rfl
    have hfilter : (session_vote_counts db sid r).filter
        (fun vc => vc.vote_count == min_vote_count (session_vote_counts db sid r))
        = session_vote_counts db sid r := by
      apply List.filter_eq_self.2
      intro vc hvc
      rw [hmin, hz vc hvc]
      simp
    have hze : m.id ∈ (session_vote_counts db sid r).map VoteCount.movie_id := by
      rw [session_vote_counts_ids]
      exact List.mem_map.2 ⟨m, hmem, rfl⟩
    have hid : (advance_movies_to_eliminate db sid r).contains m.id = true := by
      simp only [advance_movies_to_eliminate, hne]
      rw [if_neg (by simp : ¬ false = true)]
      rw [hfilter]
      simpa using hze
    unfold elimUpdate
    rw [if_pos hid]
    simp
  · rcases elimUpdate_cases db sid r m with hc | ⟨_, h2, _, _⟩
    · rw [hc]; simp [hsid]
    · simp [h2, hsid]

/-- `advStep` is determined by a successful advance. -/
theorem advStep_eq (db : DB) (sid : Int) (db' : DB) (res : AdvanceResult)
    (h : advance_session_round db sid = some (db', res)) : advStep db sid = db' := by
  unfold advStep
  rw [h]

/-!
## Claim C10: round advance on a session with zero candidates
-/

/-- C10: for a session with zero movies, `advance_session_round`
succeeds whatever the status is, eliminates nothing, increments
`current_round` by exactly one, sets the status to `"finished"` and
reports no winner. -/
theorem advance_with_zero_candidates (db : DB) (sid : Int) (s : SessionRec)
    (h : get_session db sid = some s)
    (hnm : get_session_movies db sid = []) :
    ∃ db' res, advance_session_round db sid = some (db', res) ∧
      res.eliminated_movies = [] ∧
      res.new_round = s.current_round + 1 ∧
      res.session.current_round = s.current_round + 1 ∧
      res.session.status = "finished" ∧
      res.winner = none ∧
      get_session db' sid = some res.session := by
  have hids : advance_movies_to_eliminate db sid s.current_round = [] := by
    unfold advance_movies_to_eliminate
    have he : (session_vote_counts db sid s.current_round).isEmpty = true := by
      rw [session_vote_counts_isEmpty, hnm]
      rfl
    simp [he]
  have hactive : ((db.movies.map (elimUpdate db sid s.current_round)).filter
      (fun m => m.session_id == sid && m.eliminated_round.isNone)).length = 0 := by
    rw [List.length_eq_zero, List.filter_eq_nil_iff]
    intro m' hm'
    obtain ⟨m, hm, rfl⟩ := List.mem_map.1 hm'
    by_cases hmm : m.session_id = sid
    · exfalso
      have : m ∈ get_session_movies db sid :=
        List.mem_filter.2 ⟨hm, by simp [hmm]⟩
      rw [hnm] at this
      simp at this
    · rcases elimUpdate_cases db sid s.current_round m with hc | ⟨_, h2, _, _⟩
      · rw [hc]; simp [hmm]
      · simp [h2, hmm]
  unfold advance_session_round
  rw [h]
  refine ⟨_, _, rfl, ?_, rfl, rfl, ?_, ?_, ?_⟩
  · simp only [hids, List.filterMap_nil]
  · simp only [hactive]
    norm_num
  · simp only [hactive]
    norm_num
  · exact find_replace (s := s) h (get_session_id_eq (s := s) h)

/-- A submission-phase session with zero movies; witness state for C10. -/
def w10db : DB :=
  { sessions := [{ id := 4, code := "W0W0W0", status := "submission", current_round := 7,
                   winner_movie_id := none }]
    participants := []
    movies := []
    votes := []
    next_vote_id := 1 }

/-- Witness for C10 at `w10db`: the hypotheses of
`advance_with_zero_candidates` hold at session 4 and the conclusion
follows. -/
theorem advance_with_zero_candidates_witness :
    ∃ db' res, advance_session_round w10db 4 = some (db', res) ∧
      res.eliminated_movies = [] ∧
      res.new_round = 7 + 1 ∧
      res.session.current_round = 7 + 1 ∧
      res.session.status = "finished" ∧
      res.winner = none ∧
      get_session db' 4 = some res.session :=
  advance_with_zero_candidates w10db 4
    { id := 4, code := "W0W0W0", status := "submission", current_round := 7,
      winner_movie_id := none }
    (by decide) (by decide)

/-!
## Claim C5 (code bug): a validation-passing vote commits its row and
then fails
-/

/-- A voting session with one active movie and no votes; the request
below passes every validation of the vote endpoint. -/
def c5db : DB :=
  { sessions := [{ id := 1, code := "C5C5C5", status := "voting", current_round := 1,
                   winner_movie_id := none }]
    participants := [{ id := 1, session_id := 1, name := "erin" }]
    movies := [mkMovie 1 1 "A" none]
    votes := []
    next_vote_id := 3 }

/-- A valid vote request for the current round of `c5db`. -/
def c5vote : VoteCreate := { movie_id := 1, round := 1, participant_id := 1, session_id := 1 }

/-- C5 names a code bug: the valid request `c5vote` on `c5db` passes
every check and `crud.create_vote` commits the row — then the endpoint
fails anyway, because `main.py` line 215 calls the module's async route
handler `get_round_results` without `await` and subscripts the
coroutine (`TypeError`, HTTP 500), with no rollback.  This failed
`cast_vote` call leaves partial state: the vote row is persisted and
the round's results change, contradicting the claim. -/
theorem cast_vote_commits_row_then_errors :
    (cast_vote c5db 1 c5vote).2 = Except.error ApiError.internalError ∧
    (cast_vote c5db 1 c5vote).1.votes
      = [{ id := 3, participant_id := 1, movie_id := 1, session_id := 1, round := 1 }] ∧
    get_round_results (cast_vote c5db 1 c5vote).1 1 1 ≠ get_round_results c5db 1 1 := by
  decide

/-!
## Claim C6 (amended): the vote's round is never validated
-/

/-- C6 (amended): while the session is in status `"voting"` or
`"revote"`, `cast_vote` treats every round number alike — the request's
`round` is never compared with the session's `current_round`.  Whenever
the session, status, participant, movie and duplicate checks pass, the
vote row is created and committed carrying the round exactly as sent,
whatever its value; the endpoint then fails with the internal error of
the unawaited `get_round_results` call, just as it does for a
current-round vote, so no round value is singled out for rejection (and
none is accepted in the sense of returning a Vote). -/
theorem cast_vote_accepts_any_round (db : DB) (sid : Int) (vc : VoteCreate)
    (s : SessionRec) (m : MovieRec)
    (hs : get_session db sid = some s)
    (hst : s.status = "voting" ∨ s.status = "revote")
    (hp : (get_participant db vc.participant_id).isSome = true)
    (hm : get_movie db vc.movie_id = some m)
    (hel : m.eliminated_round = none)
    (hdup : ∀ v ∈ db.votes, ¬(v.participant_id = vc.participant_id ∧
            v.movie_id = vc.movie_id ∧ v.round = vc.round)) :
    cast_vote db sid vc =
      ({ db with
          votes := db.votes ++
            [{ id := db.next_vote_id, participant_id := vc.participant_id,
               movie_id := vc.movie_id, session_id := vc.session_id,
               round := vc.round }]
          next_vote_id := db.next_vote_id + 1 },
       Except.error ApiError.internalError) := by
  obtain ⟨p, hp'⟩ := Option.isSome_iff_exists.1 hp
  have hst' : (!(s.status == "voting" || s.status == "revote")) = false := by
    rcases hst with h | h <;> simp [h]
  have hel' : (!m.eliminated_round.isNone) = false := by
    rw [hel]; rfl
  have hany : (db.votes.any (fun v =>
      v.participant_id == vc.participant_id && v.movie_id == vc.movie_id &&
      v.round == vc.round)) = false := by
    rw [List.any_eq_false]
    intro v hv
    have := hdup v hv
    simp only [Bool.and_eq_true, beq_iff_eq]
    rintro ⟨⟨h1, h2⟩, h3⟩
    exact this ⟨h1, h2, h3⟩
  unfold cast_vote
  simp only [hs, hst', Bool.false_eq_true, if_false, hp', hm, hel', hany]
  rfl

/-- Witness state for C6: a voting session in round 1. -/
def w6db : DB :=
  { sessions := [{ id := 1, code := "W6W6W6", status := "voting", current_round := 1,
                   winner_movie_id := none }]
    participants := [{ id := 1, session_id := 1, name := "bob" }]
    movies := [mkMovie 1 1 "A" none]
    votes := []
    next_vote_id := 20 }

/-- A vote request for round 42 while the session is in round 1. -/
def w6vote : VoteCreate := { movie_id := 1, round := 42, participant_id := 1, session_id := 1 }

/-- Witness for C6 (amended): the hypotheses of
`cast_vote_accepts_any_round` are discharged at `w6db` with a request
whose round (42) differs from the session's current round (1); the
row is committed with round 42 and the call ends in the internal
error. -/
theorem cast_vote_accepts_any_round_witness :
    cast_vote w6db 1 w6vote =
      ({ w6db with
          votes := w6db.votes ++
            [{ id := 20, participant_id := 1, movie_id := 1, session_id := 1,
               round := 42 }]
          next_vote_id := 21 },
       Except.error ApiError.internalError) :=
  cast_vote_accepts_any_round w6db 1 w6vote
    { id := 1, code := "W6W6W6", status := "voting", current_round := 1,
      winner_movie_id := none }
    (mkMovie 1 1 "A" none)
    (by decide) (Or.inl rfl) (by decide) (by decide) rfl (by decide)

/-!
## Claim C1 (amended): `eliminated_round` is never cleared, but can be
overwritten by a later round advance
-/

/-- C1 (amended): across the public operations, a candidate's
`eliminated_round` is never cleared back to null — but it is not set at
most once: a successful `advance_session_round` may overwrite an
already-set `eliminated_round` with the round just played
(`res.old_round`), because its elimination scan ranges over all movies
of the session including eliminated ones.  `update_session_status` and
`cast_vote` never touch the movies table. -/
theorem eliminated_round_never_cleared (db : DB) (sid : Int) (db' : DB)
    (res : AdvanceResult)
    (hadv : advance_session_round db sid = some (db', res)) :
    (∀ m' ∈ db'.movies, ∃ m ∈ db.movies, m'.id = m.id ∧
      (m'.eliminated_round = m.eliminated_round ∨ m'.eliminated_round = some res.old_round) ∧
      (m.eliminated_round ≠ none → m'.eliminated_round ≠ none)) ∧
    (∀ status, (update_session_status db sid status).1.movies = db.movies) ∧
    (∀ vc, (cast_vote db sid vc).1.movies = db.movies) := by
  refine ⟨?_, ?_, ?_⟩
  · intro m' hm'
    cases hs : get_session db sid with
    | none =>
      unfold advance_session_round at hadv
      rw [hs] at hadv
      simp at hadv
    | some s =>
      obtain ⟨D, R, hDR, _, _, hmov, _, _, _, _, _, hold, _, _⟩ := advance_spec db sid s hs
      rw [hadv] at hDR
      injection hDR with h1
      have hD : db' = D := congrArg Prod.fst h1
      have hR : res = R := congrArg Prod.snd h1
      rw [hD, hmov] at hm'
      obtain ⟨m, hm, rfl⟩ := List.mem_map.1 hm'
      have holdr : res.old_round = s.current_round := by rw [hR]; exact hold
      rcases elimUpdate_cases db sid s.current_round m with hc | ⟨he, _, hid, _⟩
      · exact ⟨m, hm, by rw [hc], Or.inl (by rw [hc]), fun hne => by rw [hc]; exact hne⟩
      · refine ⟨m, hm, hid, Or.inr (by rw [he, holdr]), fun _ => ?_⟩
        rw [he]
        simp
  · intro status
    unfold update_session_status
    cases get_session db sid <;> rfl
  · intro vc
    unfold cast_vote
    iterate 6 (all_goals try split)
    all_goals rfl

/-- The state of `c1db` after one round advance (movie 2's
`eliminated_round` overwritten from 1 to 2, movie 1 the winner). -/
def c1dbAfter : DB :=
  { sessions := [{ id := 1, code := "C1C1C1", status := "finished", current_round := 3,
                   winner_movie_id := some 1 }]
    participants := [{ id := 1, session_id := 1, name := "alice" }]
    movies := [mkMovie 1 1 "A" none, mkMovie 2 1 "B" (some 2)]
    votes := [{ id := 1, participant_id := 1, movie_id := 1, session_id := 1, round := 2 }]
    next_vote_id := 2 }

/-- The result record of that advance on `c1db`. -/
def c1res : AdvanceResult :=
  { session := { id := 1, code := "C1C1C1", status := "finished", current_round := 3,
                 winner_movie_id := some 1 }
    eliminated_movies := [{ movie_id := 2, title := "B", vote_count := 0, eliminated_round := 2 }]
    old_round := 2
    new_round := 3
    winner := some { movie_id := 1, title := "A" }
    vote_counts := [{ movie_id := 1, movie_title := "A", vote_count := 1, round := 2 },
                    { movie_id := 2, movie_title := "B", vote_count := 0, round := 2 }] }

/-- Witness for C1 (amended), at `c1db`: the rewritten movie 2 of the
post-advance state traces back to a movie of `c1db` with the same id
whose `eliminated_round` is either kept or overwritten with the old
round, and is not cleared. -/
theorem eliminated_round_never_cleared_witness :
    ∃ m ∈ c1db.movies, (mkMovie 2 1 "B" (some 2)).id = m.id ∧
      ((mkMovie 2 1 "B" (some 2)).eliminated_round = m.eliminated_round ∨
       (mkMovie 2 1 "B" (some 2)).eliminated_round = some c1res.old_round) ∧
      (m.eliminated_round ≠ none → (mkMovie 2 1 "B" (some 2)).eliminated_round ≠ none) :=
  (eliminated_round_never_cleared c1db 1 c1dbAfter c1res (by decide)).1
    (mkMovie 2 1 "B" (some 2)) (by decide)

/-!
## Claim C2 (amended): the advance tally ranges over all movies of the
session
-/

/-- C2 (amended): the tally used by `advance_session_round` to decide
elimination has exactly one entry per movie of the session — eliminated
movies included, contrary to the claim — in table order, and each
entry's count is the number of current-round votes for that movie (a
movie with no votes gets count 0). -/
theorem advance_tally_over_all_session_movies (db : DB) (sid : Int)
    (s : SessionRec) (db' : DB) (res : AdvanceResult)
    (hs : get_session db sid = some s)
    (hadv : advance_session_round db sid = some (db', res)) :
    res.vote_counts.map VoteCount.movie_id = (get_session_movies db sid).map MovieRec.id ∧
    ∀ vc ∈ res.vote_counts,
      vc.vote_count = ((get_round_votes db sid s.current_round).filter
        (fun v => v.movie_id == vc.movie_id)).length := by
  obtain ⟨D, R, hDR, _, _, _, _, _, _, _, _, _, _, hvc⟩ := advance_spec db sid s hs
  rw [hadv] at hDR
  injection hDR with h1
  have hR : res = R := congrArg Prod.snd h1
  rw [hR, hvc]
  refine ⟨session_vote_counts_ids db sid s.current_round, ?_⟩
  intro vc hvc'
  unfold session_vote_counts tally_vote_counts at hvc'
  obtain ⟨m, _, rfl⟩ := List.mem_map.1 hvc'
  rfl

/-- The state of `c2db` after one round advance. -/
def c2dbAfter : DB :=
  { sessions := [{ id := 1, code := "C2C2C2", status := "finished", current_round := 3,
                   winner_movie_id := some 1 }]
    participants := [{ id := 1, session_id := 1, name := "alice" }]
    movies := [mkMovie 1 1 "A" none, mkMovie 2 1 "B" (some 2)]
    votes := [{ id := 1, participant_id := 1, movie_id := 1, session_id := 1, round := 2 }]
    next_vote_id := 2 }

/-- The result record of that advance on `c2db`. -/
def c2res : AdvanceResult :=
  { session := { id := 1, code := "C2C2C2", status := "finished", current_round := 3,
                 winner_movie_id := some 1 }
    eliminated_movies := [{ movie_id := 2, title := "B", vote_count := 0, eliminated_round := 2 }]
    old_round := 2
    new_round := 3
    winner := some { movie_id := 1, title := "A" }
    vote_counts := [{ movie_id := 1, movie_title := "A", vote_count := 1, round := 2 },
                    { movie_id := 2, movie_title := "B", vote_count := 0, round := 2 }] }

/-- Witness for C2 (amended), at `c2db`: the tally ids are exactly the
session's movie ids, and the concrete entry for the eliminated movie 2
carries the number of its current-round votes (zero). -/
theorem advance_tally_over_all_session_movies_witness :
    (c2res.vote_counts.map VoteCount.movie_id
      = (get_session_movies c2db 1).map MovieRec.id) ∧
    ({ movie_id := 2, movie_title := "B", vote_count := 0, round := 2 : VoteCount }.vote_count
      = ((get_round_votes c2db 1 2).filter (fun v => v.movie_id ==
          ({ movie_id := 2, movie_title := "B", vote_count := 0, round := 2 : VoteCount }.movie_id))).length) :=
  ⟨(advance_tally_over_all_session_movies c2db 1
      { id := 1, code := "C2C2C2", status := "voting", current_round := 2,
        winner_movie_id := none }
      c2dbAfter c2res (by decide) (by decide)).1,
   (advance_tally_over_all_session_movies c2db 1
      { id := 1, code := "C2C2C2", status := "voting", current_round := 2,
        winner_movie_id := none }
      c2dbAfter c2res (by decide) (by decide)).2
     { movie_id := 2, movie_title := "B", vote_count := 0, round := 2 } (by decide)⟩

/-!
## Claim C3 (amended): the finished-iff-one-active equivalence holds
after a round advance on a not-yet-finished session, but not after
`updateStatus`
-/

/-- C3 (amended): after a successful `advance_session_round` on a
session that was not already finished, `status = "finished"` holds if
and only if at most one of the session's movies is still active; the
equivalence is not maintained by the status-update endpoint, which sets
any valid status unconditionally. -/
theorem advance_finished_iff_at_most_one_active (db : DB) (sid : Int)
    (s : SessionRec) (db' : DB) (res : AdvanceResult)
    (hs : get_session db sid = some s)
    (hadv : advance_session_round db sid = some (db', res))
    (hnf : s.status ≠ "finished") :
    (res.session.status = "finished" ↔ activeCount db' sid ≤ 1) ∧
    get_session db' sid = some res.session := by
  obtain ⟨D, R, hDR, _, _, _, _, hfind, _, _, hstat, _, _, _⟩ := advance_spec db sid s hs
  rw [hadv] at hDR
  injection hDR with h1
  have hD : db' = D := congrArg Prod.fst h1
  have hR : res = R := congrArg Prod.snd h1
  subst hD
  subst hR
  refine ⟨?_, hfind⟩
  rw [hstat]
  by_cases hle : activeCount db' sid ≤ 1
  · rw [if_pos hle]
    exact ⟨fun _ => hle, fun _ => rfl⟩
  · rw [if_neg hle]
    exact ⟨fun hf => absurd hf hnf, fun hl => absurd hl hle⟩

/-- The state of `c3db` after one round advance (no votes were cast, so
every movie ties at zero and all are eliminated). -/
def c3dbAfter : DB :=
  { sessions := [{ id := 1, code := "C3C3C3", status := "finished", current_round := 2,
                   winner_movie_id := none }]
    participants := [{ id := 1, session_id := 1, name := "alice" }]
    movies := [mkMovie 1 1 "A" (some 1), mkMovie 2 1 "B" (some 1)]
    votes := []
    next_vote_id := 1 }

/-- The result record of that advance on `c3db`. -/
def c3res : AdvanceResult :=
  { session := { id := 1, code := "C3C3C3", status := "finished", current_round := 2,
                 winner_movie_id := none }
    eliminated_movies := [{ movie_id := 1, title := "A", vote_count := 0, eliminated_round := 1 },
                          { movie_id := 2, title := "B", vote_count := 0, eliminated_round := 1 }]
    old_round := 1
    new_round := 2
    winner := none
    vote_counts := [{ movie_id := 1, movie_title := "A", vote_count := 0, round := 1 },
                    { movie_id := 2, movie_title := "B", vote_count := 0, round := 1 }] }

/-- Witness for C3 (amended), at `c3db`: the advance hypotheses hold
concretely and the equivalence follows for the resulting state. -/
theorem advance_finished_iff_at_most_one_active_witness :
    (c3res.session.status = "finished" ↔ activeCount c3dbAfter 1 ≤ 1) ∧
    get_session c3dbAfter 1 = some c3res.session :=
  advance_finished_iff_at_most_one_active c3db 1
    { id := 1, code := "C3C3C3", status := "voting", current_round := 1,
      winner_movie_id := none }
    c3dbAfter c3res (by decide) (by decide) (by decide)

/-!
## Claim C4 (amended): termination bound without future-round votes
-/

/-- Once finished, a session stays finished across round advances
(`advance_session_round` only ever sets the status to `"finished"`,
never away from it). -/
theorem advStep_preserves_finished (db : DB) (sid : Int)
    (h : sessionStatus db sid = some "finished") :
    sessionStatus (advStep db sid) sid = some "finished" := by
  cases hs : get_session db sid with
  | none =>
    unfold sessionStatus at h
    rw [hs] at h
    cases h
  | some s =>
    have hst : s.status = "finished" := by
      unfold sessionStatus at h
      rw [hs] at h
      simpa using h
    obtain ⟨D, R, hDR, _, _, _, _, hfind, _, _, hstat, _, _, _⟩ := advance_spec db sid s hs
    rw [advStep_eq db sid D R hDR]
    unfold sessionStatus
    rw [hfind]
    simp only [Option.map_some']
    rw [hstat]
    by_cases hle : activeCount D sid ≤ 1
    · rw [if_pos hle]
    · rw [if_neg hle, hst]

/-- Iterated version of `advStep_preserves_finished`. -/
theorem advanceIter_preserves_finished (db : DB) (sid : Int) (n : Nat)
    (h : sessionStatus db sid = some "finished") :
    sessionStatus (advanceIter db sid n) sid = some "finished" := by
  induction n generalizing db with
  | zero => exact h
  | succ n ih => exact ih _ (advStep_preserves_finished db sid h)

/-- C4 (amended): if a session has `N ≥ 1` active candidates and no
vote is stored for a round beyond its current round, then `N`
consecutive `advance_session_round` calls (with no operation in
between) leave the session with `status = "finished"`.  (Without the
no-future-votes hypothesis the bound fails, because `cast_vote` accepts
votes for arbitrary rounds.) -/
theorem advance_reaches_finished_within_active_count (db : DB) (sid : Int)
    (s : SessionRec) (N : Nat)
    (hs : get_session db sid = some s)
    (hN : activeCount db sid = N) (hpos : 1 ≤ N)
    (hfuture : ∀ v ∈ db.votes, v.session_id = sid → v.round ≤ s.current_round) :
    sessionStatus (advanceIter db sid N) sid = some "finished" := by
  obtain ⟨db1, res1, hDR, hv1, _, hmov1, _, hfind1, _, hcur1, hstat1, _, _, _⟩ :=
    advance_spec db sid s hs
  have hstep1 : advStep db sid = db1 := advStep_eq db sid db1 res1 hDR
  cases N with
  | zero => omega
  | succ n =>
    cases n with
    | zero =>
      -- a single call: the active count can only shrink, so it is ≤ 1
      have hle : activeCount db1 sid ≤ 1 := by
        have hmono : activeCount db1 sid ≤ activeCount db sid := by
          unfold activeCount get_active_movies
          rw [hmov1]
          exact active_length_map_elim_le db sid s.current_round db.movies
        omega
      have h1 : advanceIter db sid 1 = db1 := by
        show advanceIter (advStep db sid) sid 0 = db1
        rw [hstep1]
        rfl
      rw [h1]
      unfold sessionStatus
      rw [hfind1]
      simp only [Option.map_some']
      rw [hstat1, if_pos hle]
    | succ k =>
      -- after the first call the new current round has no votes, so the
      -- second call eliminates every movie and finishes the session
      have hnov : db1.votes.filter
          (fun v => v.session_id == sid && v.round == res1.session.current_round) = [] := by
        rw [hv1, List.filter_eq_nil_iff]
        intro v hv
        simp only [Bool.and_eq_true, beq_iff_eq, not_and]
        intro hvs hvr
        have hle := hfuture v hv hvs
        rw [hcur1] at hvr
        omega
      obtain ⟨db2, res2, hDR2, _, _, hmov2, _, hfind2, _, _, hstat2, _, _, _⟩ :=
        advance_spec db1 sid res1.session hfind1
      have hstep2 : advStep db1 sid = db2 := advStep_eq db1 sid db2 res2 hDR2
      have hzero : activeCount db2 sid = 0 := by
        unfold activeCount get_active_movies
        rw [hmov2]
        exact active_zero_after_advance_without_votes db1 sid res1.session.current_round hnov
      have hfin2 : sessionStatus db2 sid = some "finished" := by
        unfold sessionStatus
        rw [hfind2]
        simp only [Option.map_some']
        rw [hstat2, if_pos (by omega)]
      have hiter : advanceIter db sid (k + 2) = advanceIter db2 sid k := by
        show advanceIter (advStep db sid) sid (k + 1) = advanceIter db2 sid k
        rw [hstep1]
        show advanceIter (advStep db1 sid) sid k = advanceIter db2 sid k
        rw [hstep2]
      rw [hiter]
      exact advanceIter_preserves_finished db2 sid k hfin2

/-- Witness state for C4 (amended): a voting session with two active
movies, one round-1 vote, and no votes beyond the current round. -/
def w4db : DB :=
  { sessions := [{ id := 1, code := "W4W4W4", status := "voting", current_round := 1,
                   winner_movie_id := none }]
    participants := [{ id := 1, session_id := 1, name := "carol" }]
    movies := [mkMovie 1 1 "A" none, mkMovie 2 1 "B" none]
    votes := [{ id := 1, participant_id := 1, movie_id := 1, session_id := 1, round := 1 }]
    next_vote_id := 2 }

/-- Witness for C4 (amended): `w4db` has 2 active candidates and no
future-round votes, and 2 consecutive advances finish it. -/
theorem advance_reaches_finished_within_active_count_witness :
    sessionStatus (advanceIter w4db 1 2) 1 = some "finished" :=
  advance_reaches_finished_within_active_count w4db 1
    { id := 1, code := "W4W4W4", status := "voting", current_round := 1,
      winner_movie_id := none }
    2 (by decide) (by decide) (by decide) (by decide)

/-!
## Claim C7 (amended): DuplicateVote behaviour of `cast_vote`
-/

/-- Witness state for C7: a voting session with one active movie and no
votes yet. -/
def w7db : DB :=
  { sessions := [{ id := 1, code := "W7W7W7", status := "voting", current_round := 1,
                   winner_movie_id := none }]
    participants := [{ id := 1, session_id := 1, name := "dave" }]
    movies := [mkMovie 1 1 "A" none]
    votes := []
    next_vote_id := 5 }

/-- The duplicate vote request used by the C7 witness. -/
def w7vote : VoteCreate := { movie_id := 1, round := 1, participant_id := 1, session_id := 1 }

/-- The state after the first cast of `w7vote` (row committed even
though the call erred). -/
def w7db1 : DB :=
  { sessions := [{ id := 1, code := "W7W7W7", status := "voting", current_round := 1,
                   winner_movie_id := none }]
    participants := [{ id := 1, session_id := 1, name := "dave" }]
    movies := [mkMovie 1 1 "A" none]
    votes := [{ id := 5, participant_id := 1, movie_id := 1, session_id := 1, round := 1 }]
    next_vote_id := 6 }

/-- Counterexample to C7: the first cast of a fresh (participant,
movie, round) triple does not succeed — on `w7db` the request passes
the duplicate check and the row is committed, yet the call still fails
with the internal error of the unawaited `get_round_results` call
(`main.py` line 215); no `cast_vote` call ever returns a Vote. -/
theorem first_cast_commits_but_does_not_succeed :
    (cast_vote w7db 1 w7vote).2 = Except.error ApiError.internalError ∧
    (cast_vote w7db 1 w7vote).1.votes
      = [{ id := 5, participant_id := 1, movie_id := 1, session_id := 1, round := 1 }] := by
  decide

/-- C7 (amended): once the session/status/participant/movie checks
pass, `cast_vote` fails with `duplicateVote` exactly when a vote with
the same (participant, movie, round) triple already exists.  Casting
the same vote twice never returns a Vote: the first call (no duplicate
yet) commits the row and then fails with the internal error, the second
call fails with `duplicateVote` while changing nothing, and exactly one
row with the triple exists afterwards. -/
theorem cast_vote_duplicate_iff_and_idempotence (db : DB) (sid : Int) (vc : VoteCreate)
    (s : SessionRec) (m : MovieRec)
    (hs : get_session db sid = some s)
    (hst : s.status = "voting" ∨ s.status = "revote")
    (hp : (get_participant db vc.participant_id).isSome = true)
    (hm : get_movie db vc.movie_id = some m)
    (hel : m.eliminated_round = none) :
    ((cast_vote db sid vc).2 = Except.error ApiError.duplicateVote ↔
      ∃ v ∈ db.votes, v.participant_id = vc.participant_id ∧ v.movie_id = vc.movie_id ∧
        v.round = vc.round) ∧
    ((¬ ∃ v ∈ db.votes, v.participant_id = vc.participant_id ∧ v.movie_id = vc.movie_id ∧
        v.round = vc.round) →
      cast_vote db sid vc = ((create_vote db vc).1, Except.error ApiError.internalError) ∧
      cast_vote (create_vote db vc).1 sid vc
        = ((create_vote db vc).1, Except.error ApiError.duplicateVote) ∧
      ((create_vote db vc).1.votes.filter (fun v => v.participant_id == vc.participant_id &&
        v.movie_id == vc.movie_id && v.round == vc.round)).length = 1) := by
  obtain ⟨p, hp'⟩ := Option.isSome_iff_exists.1 hp
  have hst' : (!(s.status == "voting" || s.status == "revote")) = false := by
    rcases hst with h | h <;> simp [h]
  have hel' : (!m.eliminated_round.isNone) = false := by
    rw [hel]; rfl
  have hred : cast_vote db sid vc =
      (if (db.votes.any (fun v => v.participant_id == vc.participant_id &&
          v.movie_id == vc.movie_id && v.round == vc.round)) = true then
        (db, Except.error ApiError.duplicateVote)
      else ((create_vote db vc).1, Except.error ApiError.internalError)) := by
    unfold cast_vote
    simp only [hs, hst', Bool.false_eq_true, if_false, hp', hm, hel']
  constructor
  · rw [hred]
    by_cases hany : (db.votes.any (fun v => v.participant_id == vc.participant_id &&
        v.movie_id == vc.movie_id && v.round == vc.round)) = true
    · rw [if_pos hany]
      refine ⟨fun _ => ?_, fun _ => rfl⟩
      obtain ⟨v, hv, hmatch⟩ := List.any_eq_true.1 hany
      simp only [Bool.and_eq_true, beq_iff_eq] at hmatch
      exact ⟨v, hv, hmatch.1.1, hmatch.1.2, hmatch.2⟩
    · rw [if_neg hany]
      constructor
      · intro hcontra
        injection hcontra with h2
        exact ApiError.noConfusion h2
      · rintro ⟨v, hv, h1, h2, h3⟩
        exact absurd (List.any_eq_true.2 ⟨v, hv, by simp [h1, h2, h3]⟩) hany
  · intro hno
    have hany' : (db.votes.any (fun v => v.participant_id == vc.participant_id &&
        v.movie_id == vc.movie_id && v.round == vc.round)) = false := by
      rw [List.any_eq_false]
      intro v hv
      simp only [Bool.and_eq_true, beq_iff_eq]
      rintro ⟨⟨h1, h2⟩, h3⟩
      exact hno ⟨v, hv, h1, h2, h3⟩
    have hfirst : cast_vote db sid vc
        = ((create_vote db vc).1, Except.error ApiError.internalError) := by
      rw [hred, hany']
      simp only [Bool.false_eq_true, if_false]
    have hs1 : get_session (create_vote db vc).1 sid = some s := hs
    have hp1 : get_participant (create_vote db vc).1 vc.participant_id = some p := hp'
    have hm1 : get_movie (create_vote db vc).1 vc.movie_id = some m := hm
    have hnewmatch : ((create_vote db vc).2.participant_id == vc.participant_id &&
        (create_vote db vc).2.movie_id == vc.movie_id &&
        (create_vote db vc).2.round == vc.round) = true := by
      simp [create_vote]
    have hany1 : ((create_vote db vc).1.votes.any (fun v =>
        v.participant_id == vc.participant_id &&
        v.movie_id == vc.movie_id && v.round == vc.round)) = true := by
      apply List.any_eq_true.2
      refine ⟨(create_vote db vc).2, ?_, hnewmatch⟩
      show (create_vote db vc).2 ∈ db.votes ++ [(create_vote db vc).2]
      simp
    have hsecond : cast_vote (create_vote db vc).1 sid vc
        = ((create_vote db vc).1, Except.error ApiError.duplicateVote) := by
      unfold cast_vote
      simp only [hs1, hst', Bool.false_eq_true, if_false, hp1, hm1, hel']
      rw [hany1, if_pos rfl]
    have hnil : db.votes.filter (fun v => v.participant_id == vc.participant_id &&
        v.movie_id == vc.movie_id && v.round == vc.round) = [] := by
      rw [List.filter_eq_nil_iff]
      intro v hv
      have := List.any_eq_false.1 hany' v hv
      simpa using this
    have hcount : ((db.votes ++ [(create_vote db vc).2]).filter
        (fun v => v.participant_id == vc.participant_id &&
          v.movie_id == vc.movie_id && v.round == vc.round)).length = 1 := by
      rw [List.filter_append, hnil]
      simp [hnewmatch]
    exact ⟨hfirst, hsecond, hcount⟩

/-- Witness for C7 (amended): casting `w7vote` on `w7db` commits the
row and fails with the internal error; the second identical cast fails
with `duplicateVote` and changes nothing, and exactly one row for the
triple exists. -/
theorem cast_vote_duplicate_iff_and_idempotence_witness :
    cast_vote w7db 1 w7vote = (w7db1, Except.error ApiError.internalError) ∧
    cast_vote w7db1 1 w7vote = (w7db1, Except.error ApiError.duplicateVote) ∧
    (w7db1.votes.filter (fun v => v.participant_id == w7vote.participant_id &&
      v.movie_id == w7vote.movie_id && v.round == w7vote.round)).length = 1 :=
  let h := (cast_vote_duplicate_iff_and_idempotence w7db 1 w7vote
    { id := 1, code := "W7W7W7", status := "voting", current_round := 1,
      winner_movie_id := none }
    (mkMovie 1 1 "A" none)
    (by decide) (Or.inl rfl) (by decide) (by decide) rfl).2 (by decide)
  ⟨h.1, h.2.1, h.2.2⟩

/-!
## Claim C8 (amended): re-registering duplicates the active list
-/

/-- A keyed map over an association list with no entry for the key is
the identity. -/
theorem map_if_not_key {β : Type} (l : List (Int × β)) (k : Int)
    (f : Int × β → Int × β)
    (h : ∀ kv ∈ l, (kv.1 == k) = false) :
    l.map (fun kv => if kv.1 == k then f kv else kv) = l := by
  induction l with
  | nil => rfl
  | cons a l ih =>
    simp only [List.map_cons, h a (List.mem_cons_self a l), Bool.false_eq_true, if_false]
    rw [ih (fun kv hkv => h kv (List.mem_cons_of_mem a hkv))]

/-- Overwriting a key's value with the value it already holds leaves a
duplicate-free association list unchanged. -/
theorem cs_overwrite_self (cs : List (Int × Int)) (ws sid : Int)
    (hnd : (cs.map Prod.fst).Nodup) (h : csLookup cs ws = some sid) :
    cs.map (fun kv => if kv.1 == ws then (kv.1, sid) else kv) = cs := by
  induction cs with
  | nil => rfl
  | cons a l ih =>
    rw [List.map_cons] at hnd
    by_cases hk : (a.1 == ws) = true
    · have haw : a.1 = ws := by simpa using hk
      have ha2 : a.2 = sid := by
        unfold csLookup at h
        rw [List.find?_cons_of_pos (p := fun kv => kv.1 == ws) l hk] at h
        simpa using h
      have htail : ∀ kv ∈ l, (kv.1 == ws) = false := by
        intro kv hkv
        have hne : kv.1 ≠ a.1 := by
          intro heq
          exact (List.nodup_cons.1 hnd).1 (heq ▸ List.mem_map_of_mem Prod.fst hkv)
        have : kv.1 ≠ ws := haw ▸ hne
        simpa using this
      rw [List.map_cons, if_pos hk, map_if_not_key l ws _ htail, ← ha2]
    · have h' : csLookup l ws = some sid := by
        unfold csLookup at h ⊢
        rw [List.find?_cons_of_neg (p := fun kv => kv.1 == ws) l hk] at h
        exact h
      rw [List.map_cons, if_neg hk, ih (List.nodup_cons.1 hnd).2 h']

/-- Adding a connection already present in its session's set leaves a
duplicate-free `session_connections` map unchanged. -/
theorem sc_add_self (sc : List (Int × List Int)) (sid ws : Int) (conns : List Int)
    (hnd : (sc.map Prod.fst).Nodup) (h : scLookup sc sid = some conns) (hws : ws ∈ conns) :
    sc.map (fun kv => if kv.1 == sid then
        (kv.1, if kv.2.contains ws then kv.2 else kv.2 ++ [ws]) else kv) = sc := by
  induction sc with
  | nil => rfl
  | cons a l ih =>
    rw [List.map_cons] at hnd
    by_cases hk : (a.1 == sid) = true
    · have haw : a.1 = sid := by simpa using hk
      have ha2 : a.2 = conns := by
        unfold scLookup at h
        rw [List.find?_cons_of_pos (p := fun kv => kv.1 == sid) l hk] at h
        simpa using h
      have hcont : a.2.contains ws = true := by
        rw [ha2]
        exact List.elem_eq_true_of_mem hws
      have htail : ∀ kv ∈ l, (kv.1 == sid) = false := by
        intro kv hkv
        have hne : kv.1 ≠ a.1 := by
          intro heq
          exact (List.nodup_cons.1 hnd).1 (heq ▸ List.mem_map_of_mem Prod.fst hkv)
        have : kv.1 ≠ sid := haw ▸ hne
        simpa using this
      rw [List.map_cons, if_pos hk, map_if_not_key l sid _ htail, hcont, if_pos rfl]
    · have h' : scLookup l sid = some conns := by
        unfold scLookup at h ⊢
        rw [List.find?_cons_of_neg (p := fun kv => kv.1 == sid) l hk] at h
        exact h
      rw [List.map_cons, if_neg hk, ih (List.nodup_cons.1 hnd).2 h']

/-- C8 (amended): calling `connect` a second time for a connection that
is already registered under the same session overwrites (hence keeps)
the reverse association and does not duplicate the per-session set —
but it appends the connection to the `active_connections` list again,
so the total connection count grows by one while every per-session
count stays unchanged. -/
theorem connect_again_only_duplicates_active (m : ConnectionManager) (ws sid : Int)
    (conns : List Int) (hwf : m.wf)
    (hcs : csLookup m.connection_sessions ws = some sid)
    (hconns : scLookup m.session_connections sid = some conns) (hws : ws ∈ conns) :
    (m.connect ws sid).session_connections = m.session_connections ∧
    (m.connect ws sid).connection_sessions = m.connection_sessions ∧
    (m.connect ws sid).active_connections = m.active_connections ++ [ws] ∧
    (m.connect ws sid).get_total_connection_count = m.get_total_connection_count + 1 ∧
    ∀ sid', (m.connect ws sid).get_session_connection_count sid'
      = m.get_session_connection_count sid' := by
  have hsc : (m.connect ws sid).session_connections = m.session_connections := by
    unfold ConnectionManager.connect
    simp only [hconns, hcs]
    exact sc_add_self m.session_connections sid ws conns hwf.1 hconns hws
  have hcs2 : (m.connect ws sid).connection_sessions = m.connection_sessions := by
    unfold ConnectionManager.connect
    simp only [hconns, hcs]
    exact cs_overwrite_self m.connection_sessions ws sid hwf.2 hcs
  refine ⟨hsc, hcs2, rfl, ?_, ?_⟩
  · show (m.active_connections ++ [ws]).length = m.active_connections.length + 1
    simp
  · intro sid'
    unfold ConnectionManager.get_session_connection_count
    rw [hsc]

/-- A manager with connection 7 freshly registered under session 1. -/
def w8m : ConnectionManager := ConnectionManager.empty.connect 7 1

/-- Witness for C8 (amended): re-registering 7 under session 1 on `w8m`
leaves both maps unchanged but grows the total connection count. -/
theorem connect_again_only_duplicates_active_witness :
    (w8m.connect 7 1).session_connections = w8m.session_connections ∧
    (w8m.connect 7 1).get_total_connection_count = w8m.get_total_connection_count + 1 :=
  let h := connect_again_only_duplicates_active w8m 7 1 [7]
    (by decide) (by decide) (by decide) (by decide)
  ⟨h.1, h.2.2.2.1⟩

/-!
## Claim C9 (amended): fan-out and eviction correctness of the broadcast
-/

/-- Delivery is attempted exactly to the connections registered under
the session at call time (the empty list when the session has no set). -/
theorem broadcast_attempted (m : ConnectionManager) (sid : Int) (f : Int → Bool) :
    (m.broadcast_to_session sid f).2 = (scLookup m.session_connections sid).getD [] := by
  unfold ConnectionManager.broadcast_to_session
  cases hlk : scLookup m.session_connections sid with
  | none => rfl
  | some conns => rfl

/-- `find?` by key commutes with dropping the entries of another key. -/
theorem find_filter_ne {β : Type} (l : List (Int × β)) (k c : Int) (hne : k ≠ c) :
    (l.filter (fun kv => kv.1 != c)).find? (fun kv => kv.1 == k)
      = l.find? (fun kv => kv.1 == k) := by
  induction l with
  | nil => rfl
  | cons a l ih =>
    by_cases hac : (a.1 != c) = true
    · rw [List.filter_cons_of_pos (p := fun kv : Int × β => kv.1 != c) hac]
      by_cases hk : (a.1 == k) = true
      · rw [List.find?_cons_of_pos (p := fun kv : Int × β => kv.1 == k) _ hk,
            List.find?_cons_of_pos (p := fun kv : Int × β => kv.1 == k) l hk]
      · rw [List.find?_cons_of_neg (p := fun kv : Int × β => kv.1 == k) _ hk,
            List.find?_cons_of_neg (p := fun kv : Int × β => kv.1 == k) l hk]
        exact ih
    · have hax : a.1 = c := by
        revert hac
        simp
      have hk : (a.1 == k) = false := by
        rw [hax]
        simpa using fun heq => hne heq.symm
      rw [List.filter_cons_of_neg (p := fun kv : Int × β => kv.1 != c) hac,
          List.find?_cons_of_neg (p := fun kv : Int × β => kv.1 == k) l (by simp [hk])]
      exact ih

/-- Dropping a key's entries makes its lookup `none`. -/
theorem find_filter_self {β : Type} (l : List (Int × β)) (c : Int) :
    (l.filter (fun kv => kv.1 != c)).find? (fun kv => kv.1 == c) = none := by
  induction l with
  | nil => rfl
  | cons a l ih =>
    by_cases hac : (a.1 != c) = true
    · have hk : ¬((a.1 == c) = true) := by
        revert hac
        simp
      rw [List.filter_cons_of_pos (p := fun kv : Int × β => kv.1 != c) hac,
          List.find?_cons_of_neg (p := fun kv : Int × β => kv.1 == c) _ hk]
      exact ih
    · rw [List.filter_cons_of_neg (p := fun kv : Int × β => kv.1 != c) hac]
      exact ih

/-- How `disconnect` changes the reverse map: the disconnected
connection's entry is deleted, every other lookup is unchanged. -/
theorem disconnect_csLookup (m : ConnectionManager) (c ws : Int) :
    csLookup (m.disconnect c).connection_sessions ws
      = if ws = c then none else csLookup m.connection_sessions ws := by
  have hproj : (m.disconnect c).connection_sessions
      = (if (csLookup m.connection_sessions c).isSome = true then
          m.connection_sessions.filter (fun kv => kv.1 != c)
        else m.connection_sessions) := rfl
  rw [hproj]
  by_cases hc : (csLookup m.connection_sessions c).isSome = true
  · rw [if_pos hc]
    by_cases hwc : ws = c
    · subst hwc
      rw [if_pos rfl]
      unfold csLookup
      rw [find_filter_self]
      rfl
    · rw [if_neg hwc]
      unfold csLookup
      rw [find_filter_ne m.connection_sessions ws c hwc]
  · rw [if_neg hc]
    by_cases hwc : ws = c
    · subst hwc
      rw [if_pos rfl]
      exact Option.not_isSome_iff_eq_none.1 hc
    · rw [if_neg hwc]

/-- `ws` is in no session set of the registry. -/
def NotInAnySession (m : ConnectionManager) (ws : Int) : Prop :=
  ∀ kv ∈ m.session_connections, ws ∉ kv.2

/-- `disconnect` only ever removes connections from session sets: every
entry of the new map comes from an entry of the old map with the same
key and a superset of connections. -/
theorem disconnect_sc_shrink (m : ConnectionManager) (c : Int) :
    ∀ kv' ∈ (m.disconnect c).session_connections,
      ∃ kv ∈ m.session_connections, kv.1 = kv'.1 ∧ ∀ x ∈ kv'.2, x ∈ kv.2 := by
  intro kv' hkv'
  cases hcs : csLookup m.connection_sessions c with
  | none =>
    simp only [ConnectionManager.disconnect, hcs] at hkv'
    exact ⟨kv', hkv', rfl, fun x hx => hx⟩
  | some sid =>
    simp only [ConnectionManager.disconnect, hcs] at hkv'
    by_cases hcond : (sid != 0 && (scLookup m.session_connections sid).isSome) = true
    · rw [if_pos hcond] at hkv'
      have hmem1 : kv' ∈ m.session_connections.map (fun kv =>
          if kv.1 == sid then (kv.1, kv.2.filter (fun x => x != c)) else kv) := by
        split at hkv'
        · exact (List.mem_filter.1 hkv').1
        · exact hkv'
      obtain ⟨kv, hkv, rfl⟩ := List.mem_map.1 hmem1
      by_cases hk : (kv.1 == sid) = true
      · rw [if_pos hk]
        refine ⟨kv, hkv, rfl, fun x hx => ?_⟩
        exact (List.mem_filter.1 hx).1
      · rw [if_neg hk]
        exact ⟨kv, hkv, rfl, fun x hx => hx⟩
    · rw [if_neg hcond] at hkv'
      exact ⟨kv', hkv', rfl, fun x hx => hx⟩

/-- Disconnecting never adds a connection to any session set. -/
theorem disconnect_preserves_notin (m : ConnectionManager) (c ws : Int)
    (h : NotInAnySession m ws) : NotInAnySession (m.disconnect c) ws := by
  intro kv' hkv' hx
  obtain ⟨kv, hkv, _, hsub⟩ := disconnect_sc_shrink m c kv' hkv'
  exact h kv hkv (hsub ws hx)

/-- Disconnecting a connection whose recorded session is nonzero and
which occurs only in that session's set removes it from every session
set. -/
theorem disconnect_self_removes (m : ConnectionManager) (ws sid : Int)
    (hcs : csLookup m.connection_sessions ws = some sid) (h0 : sid ≠ 0)
    (honly : ∀ kv ∈ m.session_connections, ws ∈ kv.2 → kv.1 = sid) :
    NotInAnySession (m.disconnect ws) ws := by
  intro kv' hkv'
  simp only [ConnectionManager.disconnect, hcs] at hkv'
  by_cases hsome : (scLookup m.session_connections sid).isSome = true
  · have hcond : (sid != 0 && (scLookup m.session_connections sid).isSome) = true := by
      simp only [Bool.and_eq_true]
      exact ⟨by simpa using h0, hsome⟩
    rw [if_pos hcond] at hkv'
    have hmem1 : kv' ∈ m.session_connections.map (fun kv =>
        if kv.1 == sid then (kv.1, kv.2.filter (fun x => x != ws)) else kv) := by
      split at hkv'
      · exact (List.mem_filter.1 hkv').1
      · exact hkv'
    obtain ⟨kv, hkv, rfl⟩ := List.mem_map.1 hmem1
    by_cases hk : (kv.1 == sid) = true
    · rw [if_pos hk]
      intro hx
      have := (List.mem_filter.1 hx).2
      simp at this
    · rw [if_neg hk]
      intro hx
      exact hk (by simp [honly kv hkv hx])
  · have hcond : ¬((sid != 0 && (scLookup m.session_connections sid).isSome) = true) := by
      simp only [Bool.and_eq_true]
      rintro ⟨_, h2⟩
      exact hsome h2
    rw [if_neg hcond] at hkv'
    intro hx
    apply hsome
    have hkey : kv'.1 = sid := honly kv' hkv' hx
    unfold scLookup
    rw [Option.isSome_map']
    rw [List.find?_isSome]
    exact ⟨kv', hkv', by simp [hkey]⟩

/-- Once a connection is in no session set and absent from the reverse
map, a disconnect pass keeps it that way. -/
theorem foldl_disconnect_preserves (l : List Int) (ws : Int) :
    ∀ m : ConnectionManager, NotInAnySession m ws →
      csLookup m.connection_sessions ws = none →
      NotInAnySession (l.foldl (fun acc c => acc.disconnect c) m) ws ∧
      csLookup (l.foldl (fun acc c => acc.disconnect c) m).connection_sessions ws = none := by
  induction l with
  | nil => exact fun m h1 h2 => ⟨h1, h2⟩
  | cons c l ih =>
    intro m h1 h2
    apply ih
    · exact disconnect_preserves_notin m c ws h1
    · rw [disconnect_csLookup]
      by_cases hwc : ws = c
      · rw [if_pos hwc]
      · rw [if_neg hwc]
        exact h2

/-- A disconnect pass containing a connection whose recorded session is
nonzero, and which occurs only under that session's key, removes the
connection from every session set and from the reverse map. -/
theorem foldl_disconnect_removes (l : List Int) (ws sid : Int) :
    ∀ m : ConnectionManager, ws ∈ l →
      csLookup m.connection_sessions ws = some sid → sid ≠ 0 →
      (∀ kv ∈ m.session_connections, ws ∈ kv.2 → kv.1 = sid) →
      NotInAnySession (l.foldl (fun acc c => acc.disconnect c) m) ws ∧
      csLookup (l.foldl (fun acc c => acc.disconnect c) m).connection_sessions ws = none := by
  induction l with
  | nil => intro m hmem; simp at hmem
  | cons c l ih =>
    intro m hmem hcs h0 honly
    by_cases hwc : ws = c
    · subst hwc
      rw [List.foldl_cons]
      apply foldl_disconnect_preserves
      · exact disconnect_self_removes m ws sid hcs h0 honly
      · rw [disconnect_csLookup, if_pos rfl]
    · have hmem' : ws ∈ l := by
        rcases List.mem_cons.1 hmem with h | h
        · exact absurd h hwc
        · exact h
      rw [List.foldl_cons]
      apply ih (m.disconnect c) hmem'
      · rw [disconnect_csLookup, if_neg hwc]
        exact hcs
      · exact h0
      · intro kv' hkv' hx
        obtain ⟨kv, hkv, hkey, hsub⟩ := disconnect_sc_shrink m c kv' hkv'
        rw [← hkey]
        exact honly kv hkv (hsub ws hx)

/-- Being in no session set means being in no lookup result. -/
theorem notin_any_getD (m : ConnectionManager) (ws : Int)
    (h : NotInAnySession m ws) :
    ∀ k, ws ∉ (scLookup m.session_connections k).getD [] := by
  intro k hx
  cases hlk : scLookup m.session_connections k with
  | none => rw [hlk] at hx; simp at hx
  | some conns =>
    rw [hlk] at hx
    unfold scLookup at hlk
    cases hf : m.session_connections.find? (fun kv => kv.1 == k) with
    | none => rw [hf] at hlk; cases hlk
    | some kv =>
      rw [hf] at hlk
      have hkv2 : kv.2 = conns := by simpa using hlk
      exact h kv (List.mem_of_find?_eq_some hf) (hkv2 ▸ hx)

/-- C9 (amended): a `broadcast_to_session` call attempts delivery to
exactly the connections registered under the session at call time, and
a connection whose send fails — provided its recorded session is the
published session, that session id is nonzero (the Python truthiness
test `if session_id` skips cleanup for id 0), and it occurs in no other
session's set — is removed from every session set and from the reverse
map, and no subsequent broadcast ever attempts delivery to it. -/
theorem broadcast_fanout_and_eviction (m : ConnectionManager) (sid : Int)
    (send_fails : Int → Bool) :
    (m.broadcast_to_session sid send_fails).2
      = (scLookup m.session_connections sid).getD [] ∧
    (∀ ws, ws ∈ (m.broadcast_to_session sid send_fails).2 → send_fails ws = true →
      sid ≠ 0 → csLookup m.connection_sessions ws = some sid →
      (∀ kv ∈ m.session_connections, ws ∈ kv.2 → kv.1 = sid) →
      (∀ k, ws ∉ (scLookup ((m.broadcast_to_session sid send_fails).1).session_connections k).getD []) ∧
      csLookup ((m.broadcast_to_session sid send_fails).1).connection_sessions ws = none ∧
      ∀ sid' fails', ws ∉ ((m.broadcast_to_session sid send_fails).1.broadcast_to_session sid' fails').2) := by
  refine ⟨broadcast_attempted m sid send_fails, ?_⟩
  intro ws hws hf h0 hcs honly
  cases hlk : scLookup m.session_connections sid with
  | none =>
    rw [broadcast_attempted m sid send_fails, hlk] at hws
    simp at hws
  | some conns =>
    have hbr : (m.broadcast_to_session sid send_fails).1
        = (conns.filter send_fails).foldl (fun acc c => acc.disconnect c) m := by
      unfold ConnectionManager.broadcast_to_session
      simp only [hlk]
    have hws' : ws ∈ conns := by
      rw [broadcast_attempted m sid send_fails, hlk] at hws
      exact hws
    have hmemf : ws ∈ conns.filter send_fails := List.mem_filter.2 ⟨hws', hf⟩
    obtain ⟨h1, h2⟩ := foldl_disconnect_removes (conns.filter send_fails) ws sid m
      hmemf hcs h0 honly
    rw [hbr]
    refine ⟨notin_any_getD _ ws h1, h2, ?_⟩
    intro sid' fails'
    rw [broadcast_attempted]
    exact notin_any_getD _ ws h1 sid'

/-- Witness for C9 (amended): on a manager with connection 7 registered
under the nonzero session 1, a broadcast during which 7's send fails
removes it from session 1's set and from the reverse map. -/
theorem broadcast_fanout_and_eviction_witness :
    (7 ∉ (scLookup (((ConnectionManager.empty.connect 7 1).broadcast_to_session 1
        (fun _ => true)).1).session_connections 1).getD []) ∧
    csLookup (((ConnectionManager.empty.connect 7 1).broadcast_to_session 1
        (fun _ => true)).1).connection_sessions 7 = none :=
  let h := (broadcast_fanout_and_eviction (ConnectionManager.empty.connect 7 1) 1
      (fun _ => true)).2 7 (by decide) rfl (by decide) (by decide) (by decide)
  ⟨h.1 1, h.2.1⟩
